import Mathlib

/-!
Verification of the LINE-bot webhook service (`main.py`, `auth_google_drive.py`).

The program is sequential orchestration of external HTTP APIs, so each source
function is embedded as a pure Lean function over an explicit environment of
call outcomes (an oracle per external call: signature verification, event
parsing, content fetch, filesystem operations, Google Drive calls, reply
calls).  Every external call is recorded in an effect trace, and the local
filesystem is threaded explicitly as the set of existing scratch-file paths.
Python exceptions are embedded as `Except` errors; a `try/except` block is a
`match` on the corresponding result.
-/

namespace LineBot

/-- A parsed OAuth credential record, as loaded from `token.json` by
`google.oauth2.credentials.Credentials.from_authorized_user_file`.  In the
google-auth library `valid` means "has a token and the token is not expired";
records persisted by `to_json` always carry their token, so for a persisted
record validity reduces to non-expiry.  `payload` stands for the serialized
bytes of the record (`to_json`), so equality of `Credentials` values is
byte-for-byte equality of the persisted file. -/
structure Credentials where
  expired : Bool
  refresh_token : Bool
  payload : String
deriving DecidableEq, Repr

/-- Embedding of the google-auth `valid` property: token present and not expired. -/
def Credentials.valid (c : Credentials) : Bool :=
  !c.expired

/-- Metadata dict passed to the Drive `files().create` call in
`upload_to_google_drive`: always a `name` entry, and a `parents` entry only
when `folder_id` is truthy. -/
structure FileMetadata where
  name : String
  parents : Option (List String)
deriving DecidableEq, Repr

/-- Fields of the created Drive file returned by `files().create(...,
fields="id, name, webViewLink, webContentLink")`. -/
structure DriveFile where
  id : String
  name : String
  webViewLink : String
  webContentLink : String
deriving DecidableEq, Repr

/-- One observable external action of the program. -/
inductive Effect where
  /-- Call `MessagingApiBlob.get_message_content(message_id)` -/
  | getContent (messageId : String)
  /-- Call `os.makedirs(dir, exist_ok=True)` -/
  | makeDirs (dir : String)
  /-- Write of the scratch file via `open(path, "wb")` -/
  | writeFile (path : String)
  /-- a call to `upload_to_google_drive(file_path, file_name, folder_id)` -/
  | uploadCall (path : String) (name : String) (folderId : Option String)
  /-- the Drive `files().create` request with its metadata dict -/
  | createCall (meta : FileMetadata)
  /-- the Drive `permissions().create` request for a file id -/
  | permissionCall (fileId : String)
  /-- Call `os.remove(path)` on the scratch file -/
  | removeFile (path : String)
  /-- a `reply_message_with_http_info` call with its reply token and the
  texts of its messages -/
  | reply (token : String) (texts : List String)
deriving DecidableEq, Repr

/-- The local filesystem, as the list of existing scratch-file paths. -/
abbrev FS := List String

/-- One inbound chat event: a text message or an image message, each with its
single-use reply token and source user id. -/
inductive InboundEvent where
  | text (replyToken : String) (userId : String) (text : String)
  | image (replyToken : String) (userId : String) (messageId : String)
deriving DecidableEq, Repr

/-- Outcome record of one run of `get_google_drive_service`: the returned
credential (or the propagated exception), the contents of `token.json`
afterwards, and how many refresh network calls and `token.json` writes the
run performed. -/
structure GServiceRun where
  result : Except String Credentials
  tokenFileAfter : Option Credentials
  refreshCalls : Nat
  tokenWrites : Nat
deriving Repr

/-- Embedding of `get_google_drive_service` (main.py lines 38-65).
`tokenFile` is the parsed contents of `token.json` if that file exists;
`refreshResult` is the outcome of the (at most one) `creds.refresh(Request())`
network call.  The Python raises `ValueError("Missing or invalid token.json")`
when no usable record exists, re-raises a failed refresh, and writes the
refreshed record back to `token.json` only after a successful refresh. -/
def get_google_drive_service (tokenFile : Option Credentials)
    (refreshResult : Except String Credentials) : GServiceRun :=
  match tokenFile with
  | none =>
    { result := .error "Missing or invalid token.json",
      tokenFileAfter := none, refreshCalls := 0, tokenWrites := 0 }
  | some creds =>
    if creds.valid then
      { result := .ok creds,
        tokenFileAfter := some creds, refreshCalls := 0, tokenWrites := 0 }
    else if creds.expired && creds.refresh_token then
      match refreshResult with
      | .error e =>
        { result := .error e,
          tokenFileAfter := some creds, refreshCalls := 1, tokenWrites := 0 }
      | .ok refreshed =>
        { result := .ok refreshed,
          tokenFileAfter := some refreshed, refreshCalls := 1, tokenWrites := 1 }
    else
      { result := .error "Missing or invalid token.json",
        tokenFileAfter := some creds, refreshCalls := 0, tokenWrites := 0 }

/-- Outcomes of the external calls made by `upload_to_google_drive`:
the `token.json` state and refresh outcome consumed by
`get_google_drive_service`, and the outcomes of `files().create` and
`permissions().create`. -/
structure UploadEnv where
  tokenFile : Option Credentials
  refreshResult : Except String Credentials
  createResult : Except String DriveFile
  permissionResult : Except String Unit

/-- The metadata dict built in `upload_to_google_drive` (main.py lines
83-87): `{"name": file_name}`, plus `"parents": [folder_id]` only when
`folder_id` is truthy in Python (not `None` and not the empty string; an
absent `GOOGLE_DRIVE_FOLDER_ID` environment variable is `None`). -/
def file_metadata (file_name : String) (folder_id : Option String) :
    FileMetadata :=
  match folder_id with
  | none => { name := file_name, parents := none }
  | some s =>
    if s = "" then { name := file_name, parents := none }
    else { name := file_name, parents := some [s] }

/-- Embedding of `upload_to_google_drive` (main.py lines 68-121).  Obtains the
service via `get_google_drive_service` (a failure there propagates), issues
the `files().create` request (a failure propagates: the outer
`try/except` only logs and re-raises), then issues the `permissions().create`
request inside its own `try/except` whose failure is logged and swallowed.
Returns the create-result fields unchanged.  The `file_path` argument is only
handed to the media upload, which the model does not inspect. -/
def upload_to_google_drive (file_path : String) (file_name : String)
    (folder_id : Option String) (env : UploadEnv) :
    Except String DriveFile × List Effect :=
  let g := get_google_drive_service env.tokenFile env.refreshResult
  match g.result with
  | .error e => (.error e, [])
  | .ok _ =>
    let meta := file_metadata file_name folder_id
    match env.createResult with
    | .error e => (.error e, [Effect.createCall meta])
    | .ok file =>
      match env.permissionResult with
      | .ok _ =>
        (.ok file, [Effect.createCall meta, Effect.permissionCall file.id])
      | .error _ =>
        (.ok file, [Effect.createCall meta, Effect.permissionCall file.id])

/-- The environment of one webhook request: the outcome of every external
call the request-handling code can make.  `verifySignature` is the SDK
HMAC check of the raw body against the channel secret; `parseBody` is the
SDK parsing of the body into events; `folderId` is
`os.getenv("GOOGLE_DRIVE_FOLDER_ID")`. -/
structure Env where
  verifySignature : String → String → Bool
  parseBody : String → Except String (List InboundEvent)
  getContent : String → Except String (List Nat)
  makeDirs : String → Except String Unit
  writeFile : String → List Nat → Except String Unit
  removeFile : String → Except String Unit
  replyResult : String → List String → Except String Unit
  folderId : Option String
  drive : UploadEnv

/-- Embedding of `handle_message` (main.py lines 149-166): build the echo
text and send exactly one reply; a failure of the reply call propagates
(this handler has no `try/except`). -/
def handle_message (env : Env) (replyToken : String) (text : String) :
    Except String Unit × List Effect :=
  let reply_text := "คุณส่งมาว่า: " ++ text
  (env.replyResult replyToken [reply_text],
   [Effect.reply replyToken [reply_text]])

/-- The `except` branch of `handle_image` (main.py lines 218-231): send one
reply reporting the error text; if that reply call itself fails, the
exception propagates out of the handler. -/
def errorReply (env : Env) (replyToken : String) (e : String) (fs : FS)
    (effs : List Effect) : Except String Unit × FS × List Effect :=
  let t := "เกิดข้อผิดพลาด: " ++ e
  (env.replyResult replyToken [t], fs, effs ++ [Effect.reply replyToken [t]])

/-- Embedding of `handle_image` (main.py lines 169-231).  Inside one big
`try`: fetch the image bytes by message id, `os.makedirs("images")`, write
the scratch file `images/{message_id}.jpg`, call `upload_to_google_drive`
with `GOOGLE_DRIVE_FOLDER_ID`, then `os.remove` the scratch file inside its
own `try/except` (failure logged and swallowed), then send the success reply.
Any exception raised in the big `try` jumps to `errorReply`; note the
`os.remove` is positioned after the upload call inside the same `try`, so an
upload failure skips it. -/
def handle_image (env : Env) (fs : FS) (replyToken : String)
    (messageId : String) : Except String Unit × FS × List Effect :=
  let image_path := "images/" ++ messageId ++ ".jpg"
  match env.getContent messageId with
  | .error e => errorReply env replyToken e fs [Effect.getContent messageId]
  | .ok content =>
  match env.makeDirs "images" with
  | .error e =>
    errorReply env replyToken e fs
      [Effect.getContent messageId, Effect.makeDirs "images"]
  | .ok _ =>
  match env.writeFile image_path content with
  | .error e =>
    errorReply env replyToken e fs
      [Effect.getContent messageId, Effect.makeDirs "images",
       Effect.writeFile image_path]
  | .ok _ =>
  let fs1 := fs.insert image_path
  let file_name := "LINE_Image_" ++ messageId ++ ".jpg"
  let u := upload_to_google_drive image_path file_name env.folderId env.drive
  let effs0 :=
    [Effect.getContent messageId, Effect.makeDirs "images",
     Effect.writeFile image_path,
     Effect.uploadCall image_path file_name env.folderId] ++ u.2
  match u.1 with
  | .error e => errorReply env replyToken e fs1 effs0
  | .ok drive_file =>
  let fs2 := match env.removeFile image_path with
    | .ok _ => fs1.erase image_path
    | .error _ => fs1
  let effs1 := effs0 ++ [Effect.removeFile image_path]
  let reply_text :=
    "✅ อัปโหลดรูปภาพไปยัง Google Drive แล้ว!\n\n📁 ชื่อไฟล์: "
      ++ drive_file.name ++ "\n🔗 ดูไฟล์: " ++ drive_file.webViewLink
  match env.replyResult replyToken [reply_text] with
  | .ok _ =>
    (.ok (), fs2, effs1 ++ [Effect.reply replyToken [reply_text]])
  | .error e =>
    errorReply env replyToken e fs2
      (effs1 ++ [Effect.reply replyToken [reply_text]])

/-- Dispatch of one parsed event to its registered handler (the
`@handler.add` registrations in main.py). -/
def dispatchEvent (env : Env) (fs : FS) :
    InboundEvent → Except String Unit × FS × List Effect
  | .text tok _ txt =>
    let h := handle_message env tok txt
    (h.1, fs, h.2)
  | .image tok _ mid => handle_image env fs tok mid

/-- Event loop of the SDK handler: events are handled strictly in order, and
an exception escaping a handler aborts the loop and propagates. -/
def handleEvents (env : Env) :
    FS → List InboundEvent → Except String Unit × FS × List Effect
  | fs, [] => (.ok (), fs, [])
  | fs, e :: rest =>
    let d := dispatchEvent env fs e
    match d.1 with
    | .error msg => (.error msg, d.2.1, d.2.2)
    | .ok _ =>
      let h := handleEvents env d.2.1 rest
      (h.1, h.2.1, d.2.2 ++ h.2.2)

/-- Errors escaping `handler.handle(body, signature)`: the SDK
`InvalidSignatureError`, or any other exception from parsing or from a
handler. -/
inductive WebhookError where
  | invalidSignature
  | other (msg : String)
deriving DecidableEq, Repr

/-- Embedding of `handler.handle(body, signature)` as called from `callback`:
verify the signature against the raw body (raising `InvalidSignatureError`
when it does not match, before any event is parsed or dispatched), then
parse the body and run the handlers. -/
def webhookHandle (env : Env) (fs : FS) (body : String) (signature : String) :
    Except WebhookError Unit × FS × List Effect :=
  if env.verifySignature body signature then
    match env.parseBody body with
    | .error e => (.error (.other e), fs, [])
    | .ok events =>
      let h := handleEvents env fs events
      match h.1 with
      | .ok _ => (.ok (), h.2.1, h.2.2)
      | .error e => (.error (.other e), h.2.1, h.2.2)
  else (.error .invalidSignature, fs, [])

/-- An HTTP response of the Flask app; for `abort(400)` / `abort(500)` only
the status is modelled and the body is left empty. -/
structure HttpResponse where
  status : Nat
  body : String
deriving DecidableEq, Repr

/-- Embedding of the `POST /callback` route handler (main.py lines 124-146).
`signature` is `request.headers.get("X-Line-Signature")` (`none` when the
header is absent); `if not signature: abort(400)` rejects both an absent and
an empty header before `handler.handle` runs.  `InvalidSignatureError`
becomes `abort(400)`, any other exception `abort(500)`, and success returns
`"OK", 200`. -/
def callback (env : Env) (fs : FS) (signature : Option String)
    (body : String) : HttpResponse × FS × List Effect :=
  match signature with
  | none => (⟨400, ""⟩, fs, [])
  | some sig =>
    if sig = "" then (⟨400, ""⟩, fs, [])
    else
      let w := webhookHandle env fs body sig
      match w.1 with
      | .ok _ => (⟨200, "OK"⟩, w.2.1, w.2.2)
      | .error .invalidSignature => (⟨400, ""⟩, w.2.1, w.2.2)
      | .error (.other _) => (⟨500, ""⟩, w.2.1, w.2.2)

/-- Whether an effect is a reply-API call. -/
def isReply : Effect → Bool
  | .reply _ _ => true
  | _ => false

/-- Whether an effect is a content fetch. -/
def isGetContent : Effect → Bool
  | .getContent _ => true
  | _ => false

/-- Whether an effect is a scratch-file write. -/
def isWriteFile : Effect → Bool
  | .writeFile _ => true
  | _ => false

/-- Whether an effect is an invocation of the uploader. -/
def isUploadCall : Effect → Bool
  | .uploadCall _ _ _ => true
  | _ => false

/-- Whether an effect is a scratch-file deletion attempt. -/
def isRemoveFile : Effect → Bool
  | .removeFile _ => true
  | _ => false

/-- Number of effects in a trace satisfying `p`. -/
def countEff (p : Effect → Bool) (effs : List Effect) : Nat :=
  (effs.filter p).length

/-! Concrete sample data, used to evaluate the theorems on closed inputs. -/

/-- A valid (non-expired) persisted credential record. -/
def okCreds : Credentials :=
  { expired := false, refresh_token := true, payload := "tok-bytes" }

/-- An expired persisted credential record that has a refresh token. -/
def expiredCreds : Credentials :=
  { expired := true, refresh_token := true, payload := "old-bytes" }

/-- A sample created Drive file. -/
def sampleFile : DriveFile :=
  { id := "fid", name := "LINE_Image_mid1.jpg",
    webViewLink := "https://drive.example/view",
    webContentLink := "https://drive.example/content" }

/-- Drive-call outcomes where everything succeeds. -/
def okDrive : UploadEnv :=
  { tokenFile := some okCreds, refreshResult := .error "no refresh",
    createResult := .ok sampleFile, permissionResult := .ok () }

/-- Drive-call outcomes where the create call fails. -/
def failDrive : UploadEnv :=
  { okDrive with createResult := .error "boom" }

/-- Drive-call outcomes where only the permission call fails. -/
def permFailDrive : UploadEnv :=
  { okDrive with permissionResult := .error "perm denied" }

/-- A request environment where every external call succeeds and the body
parses to no events. -/
def baseEnv : Env :=
  { verifySignature := fun _ _ => true,
    parseBody := fun _ => .ok [],
    getContent := fun _ => .ok [7],
    makeDirs := fun _ => .ok (),
    writeFile := fun _ _ => .ok (),
    removeFile := fun _ => .ok (),
    replyResult := fun _ _ => .ok (),
    folderId := none,
    drive := okDrive }

/-- Like `baseEnv` but signature verification rejects. -/
def envFalse : Env :=
  { baseEnv with verifySignature := fun _ _ => false }

/-- Like `baseEnv` but parsing the body raises. -/
def envErr : Env :=
  { baseEnv with parseBody := fun _ => .error "parse failed" }

/-- Like `baseEnv` but the body parses to one text event. -/
def envText : Env :=
  { baseEnv with parseBody := fun _ => .ok [.text "tok" "uid" "hello"] }

/-- Like `baseEnv` but the body parses to one image event. -/
def envImage : Env :=
  { baseEnv with parseBody := fun _ => .ok [.image "tok" "uid" "mid1"] }

/-- Like `envImage` but the Drive create call fails. -/
def envImageFail : Env :=
  { envImage with drive := failDrive }

/-! Theorems. -/

/-- C4: credential acquisition satisfies the three-case contract: a persisted
non-expired record is returned unchanged with no refresh call; a persisted
expired record with a refresh token triggers exactly one refresh call and the
refreshed record is persisted (overwritten); with no persisted record the
call fails and makes no refresh call. -/
theorem credential_acquisition_contract :
    (∀ (c : Credentials) (r : Except String Credentials), c.valid = true →
      get_google_drive_service (some c) r =
        { result := .ok c, tokenFileAfter := some c,
          refreshCalls := 0, tokenWrites := 0 }) ∧
    (∀ c c2 : Credentials, c.expired = true → c.refresh_token = true →
      get_google_drive_service (some c) (.ok c2) =
        { result := .ok c2, tokenFileAfter := some c2,
          refreshCalls := 1, tokenWrites := 1 }) ∧
    (∀ r : Except String Credentials,
      get_google_drive_service none r =
        { result := .error "Missing or invalid token.json",
          tokenFileAfter := none, refreshCalls := 0, tokenWrites := 0 }) := by
  refine ⟨?_, ?_, ?_⟩
  · intro c r h
    simp [get_google_drive_service, h]
  · intro c c2 h1 h2
    simp [get_google_drive_service, Credentials.valid, h1, h2]
  · intro r
    rfl

/-- Evaluation of `credential_acquisition_contract` on concrete records. -/
theorem credential_acquisition_contract_witness :
    get_google_drive_service (some okCreds) (.error "no refresh") =
      { result := .ok okCreds, tokenFileAfter := some okCreds,
        refreshCalls := 0, tokenWrites := 0 } ∧
    get_google_drive_service (some expiredCreds) (.ok okCreds) =
      { result := .ok okCreds, tokenFileAfter := some okCreds,
        refreshCalls := 1, tokenWrites := 1 } ∧
    get_google_drive_service none (.error "no refresh") =
      { result := .error "Missing or invalid token.json",
        tokenFileAfter := none, refreshCalls := 0, tokenWrites := 0 } :=
  ⟨credential_acquisition_contract.1 okCreds (.error "no refresh") rfl,
   credential_acquisition_contract.2.1 expiredCreds okCreds rfl rfl,
   credential_acquisition_contract.2.2 (.error "no refresh")⟩

/-- C10: when the persisted record is valid (not expired), acquisition
performs no write to `token.json`, and the record on disk afterwards is
byte-for-byte the record that was there before. -/
theorem valid_credential_no_file_write (c : Credentials)
    (r : Except String Credentials) (h : c.valid = true) :
    (get_google_drive_service (some c) r).tokenWrites = 0 ∧
    (get_google_drive_service (some c) r).tokenFileAfter = some c := by
  simp [get_google_drive_service, h]

/-- Evaluation of `valid_credential_no_file_write` on a concrete record. -/
theorem valid_credential_no_file_write_witness :
    (get_google_drive_service (some okCreds) (.ok expiredCreds)).tokenWrites
      = 0 ∧
    (get_google_drive_service (some okCreds) (.ok expiredCreds)).tokenFileAfter
      = some okCreds :=
  valid_credential_no_file_write okCreds (.ok expiredCreds) rfl

/-- C6: once the create request has succeeded, a failure of the
permission-widening call is swallowed: the upload still returns the
create-result fields unchanged and does not raise. -/
theorem permission_failure_best_effort (fp fn : String) (fid : Option String)
    (uenv : UploadEnv) (c : Credentials) (f : DriveFile) (e : String)
    (hg : (get_google_drive_service uenv.tokenFile uenv.refreshResult).result
          = .ok c)
    (hc : uenv.createResult = .ok f)
    (hperm : uenv.permissionResult = .error e) :
    upload_to_google_drive fp fn fid uenv =
      (.ok f, [Effect.createCall (file_metadata fn fid),
               Effect.permissionCall f.id]) := by
  unfold upload_to_google_drive
  simp [hg, hc, hperm]

/-- Evaluation of `permission_failure_best_effort` on concrete data. -/
theorem permission_failure_best_effort_witness :
    upload_to_google_drive "images/mid1.jpg" "LINE_Image_mid1.jpg" none
        permFailDrive =
      (.ok sampleFile,
       [Effect.createCall (file_metadata "LINE_Image_mid1.jpg" none),
        Effect.permissionCall sampleFile.id]) :=
  permission_failure_best_effort "images/mid1.jpg" "LINE_Image_mid1.jpg" none
    permFailDrive okCreds sampleFile "perm denied" rfl rfl rfl

/-- C9: the create-file metadata carries a `parents` entry listing exactly
the folder identifier when that identifier is a non-empty string, and only a
`name` entry when it is absent (`None`) or the empty string; and the create
request issued by the upload operation uses exactly this metadata. -/
theorem folder_id_truthiness (fn : String) :
    file_metadata fn none = { name := fn, parents := none } ∧
    file_metadata fn (some "") = { name := fn, parents := none } ∧
    (∀ s : String, s ≠ "" →
      file_metadata fn (some s) = { name := fn, parents := some [s] }) ∧
    (∀ (fp : String) (fid : Option String) (uenv : UploadEnv)
        (c : Credentials),
      (get_google_drive_service uenv.tokenFile uenv.refreshResult).result
          = .ok c →
      Effect.createCall (file_metadata fn fid)
          ∈ (upload_to_google_drive fp fn fid uenv).2) := by
  refine ⟨rfl, by simp [file_metadata], ?_, ?_⟩
  · intro s hs
    simp [file_metadata, hs]
  · intro fp fid uenv c hg
    unfold upload_to_google_drive
    cases hcr : uenv.createResult with
    | error e => simp [hg, hcr]
    | ok f => cases hpr : uenv.permissionResult <;> simp [hg, hcr, hpr]

/-- Evaluation of `folder_id_truthiness` on concrete data. -/
theorem folder_id_truthiness_witness :
    file_metadata "LINE_Image_mid1.jpg" (some "folder9") =
      { name := "LINE_Image_mid1.jpg", parents := some ["folder9"] } ∧
    Effect.createCall (file_metadata "LINE_Image_mid1.jpg" none)
        ∈ (upload_to_google_drive "images/mid1.jpg" "LINE_Image_mid1.jpg"
            none okDrive).2 :=
  ⟨(folder_id_truthiness "LINE_Image_mid1.jpg").2.2.1 "folder9" (by decide),
   (folder_id_truthiness "LINE_Image_mid1.jpg").2.2.2 "images/mid1.jpg" none
     okDrive okCreds rfl⟩

/-- C1: the webhook endpoint responds 400 with no handler effects when the
signature header is absent; 400 with no handler effects when the header is
present but verification fails; 500 when handling raises any other error;
and otherwise 200 with body `"OK"`. -/
theorem callback_status_contract (env : Env) (fs : FS) (body : String) :
    callback env fs none body = (⟨400, ""⟩, fs, []) ∧
    (∀ sig : String, env.verifySignature body sig = false →
      callback env fs (some sig) body = (⟨400, ""⟩, fs, [])) ∧
    (∀ sig : String, sig ≠ "" →
      (∀ (e : String) (fs2 : FS) (effs : List Effect),
        webhookHandle env fs body sig = (.error (.other e), fs2, effs) →
        callback env fs (some sig) body = (⟨500, ""⟩, fs2, effs)) ∧
      (∀ (fs2 : FS) (effs : List Effect),
        webhookHandle env fs body sig = (.ok (), fs2, effs) →
        callback env fs (some sig) body = (⟨200, "OK"⟩, fs2, effs))) := by
  refine ⟨rfl, ?_, ?_⟩
  · intro sig hv
    by_cases hsig : sig = ""
    · simp [callback, hsig]
    · simp [callback, hsig, webhookHandle, hv]
  · intro sig hs
    constructor
    · intro e fs2 effs hw
      simp [callback, hs, hw]
    · intro fs2 effs hw
      simp [callback, hs, hw]

/-- Evaluation of `callback_status_contract`: a rejected signature, a parse
error, and a successful empty dispatch, all on concrete environments. -/
theorem callback_status_contract_witness :
    callback envFalse [] (some "sig") "body" = (⟨400, ""⟩, [], []) ∧
    callback envErr [] (some "sig") "body" = (⟨500, ""⟩, [], []) ∧
    callback baseEnv [] (some "sig") "body" = (⟨200, "OK"⟩, [], []) :=
  ⟨(callback_status_contract envFalse [] "body").2.1 "sig" rfl,
   ((callback_status_contract envErr [] "body").2.2 "sig" (by decide)).1
     "parse failed" [] [] rfl,
   ((callback_status_contract baseEnv [] "body").2.2 "sig" (by decide)).2
     [] [] rfl⟩

/-- C8: a present-but-empty `X-Line-Signature` header is rejected exactly
like an absent one: 400, no handler effects, filesystem untouched — and this
holds for every environment, in particular whatever `verifySignature` and
`parseBody` would have answered, so neither signature verification nor any
event handler is consulted. -/
theorem empty_signature_rejected (env : Env) (fs : FS) (body : String) :
    callback env fs (some "") body = (⟨400, ""⟩, fs, []) := by
  simp [callback]

/-- C5: a valid signed request carrying exactly one text event sends exactly
one reply, whose text embeds the received text verbatim. -/
theorem text_event_single_echo_reply (env : Env) (fs : FS)
    (body sig tok uid txt : String)
    (hs : sig ≠ "")
    (hv : env.verifySignature body sig = true)
    (hp : env.parseBody body = .ok [InboundEvent.text tok uid txt])
    (hr : ∀ t m, env.replyResult t m = .ok ()) :
    callback env fs (some sig) body =
      (⟨200, "OK"⟩, fs, [Effect.reply tok ["คุณส่งมาว่า: " ++ txt]]) ∧
    (∃ p q, "คุณส่งมาว่า: " ++ txt = p ++ txt ++ q) := by
  constructor
  · simp [callback, webhookHandle, handleEvents, dispatchEvent,
      handle_message, hs, hv, hp, hr]
  · exact ⟨"คุณส่งมาว่า: ", "", by simp⟩

/-- Evaluation of `text_event_single_echo_reply` on a concrete request. -/
theorem text_event_single_echo_reply_witness :
    callback envText [] (some "sig") "body" =
      (⟨200, "OK"⟩, [], [Effect.reply "tok" ["คุณส่งมาว่า: " ++ "hello"]]) ∧
    (∃ p q, "คุณส่งมาว่า: " ++ "hello" = p ++ "hello" ++ q) :=
  text_event_single_echo_reply envText [] "body" "sig" "tok" "uid" "hello"
    (by decide) rfl rfl (fun _ _ => rfl)

/-- The trace of one `upload_to_google_drive` run holds at most a create
call followed by a permission call. -/
theorem upload_trace_shape (fp fn : String) (fid : Option String)
    (uenv : UploadEnv) :
    (upload_to_google_drive fp fn fid uenv).2 = [] ∨
    (∃ m, (upload_to_google_drive fp fn fid uenv).2 =
      [Effect.createCall m]) ∨
    (∃ m i, (upload_to_google_drive fp fn fid uenv).2 =
      [Effect.createCall m, Effect.permissionCall i]) := by
  unfold upload_to_google_drive
  cases hg : (get_google_drive_service uenv.tokenFile
      uenv.refreshResult).result with
  | error e => simp [hg]
  | ok c =>
    cases hcr : uenv.createResult with
    | error e => simp [hg, hcr]
    | ok f => cases hpr : uenv.permissionResult <;> simp [hg, hcr, hpr]

/-- A predicate that rejects create and permission calls filters an upload
trace to nothing. -/
theorem upload_trace_filter_nil (p : Effect → Bool)
    (h1 : ∀ m, p (Effect.createCall m) = false)
    (h2 : ∀ i, p (Effect.permissionCall i) = false)
    (fp fn : String) (fid : Option String) (uenv : UploadEnv) :
    (upload_to_google_drive fp fn fid uenv).2.filter p = [] := by
  rcases upload_trace_shape fp fn fid uenv with h | ⟨m, h⟩ | ⟨m, i, h⟩ <;>
    simp [h, h1, h2]

/-- Counting effects distributes over trace concatenation. -/
theorem countEff_append (p : Effect → Bool) (a b : List Effect) :
    countEff p (a ++ b) = countEff p a + countEff p b := by
  simp [countEff, List.filter_append]

/-- When every reply call succeeds, `handle_image` never re-raises and its
trace holds exactly one reply, on every control path. -/
theorem handle_image_replies_ok (env : Env)
    (hr : ∀ t m, env.replyResult t m = .ok ()) (fs : FS)
    (tok mid : String) :
    (handle_image env fs tok mid).1 = .ok () ∧
    countEff isReply (handle_image env fs tok mid).2.2 = 1 := by
  have hfil : (upload_to_google_drive ("images/" ++ mid ++ ".jpg")
      ("LINE_Image_" ++ mid ++ ".jpg") env.folderId
      env.drive).2.filter isReply = [] :=
    upload_trace_filter_nil isReply (fun _ => rfl) (fun _ => rfl) _ _ _ _
  cases hc : env.getContent mid with
  | error e =>
    simp [handle_image, errorReply, hc, hr, countEff, isReply]
  | ok content =>
  cases hm : env.makeDirs "images" with
  | error e =>
    simp [handle_image, errorReply, hc, hm, hr, countEff, isReply]
  | ok u1 =>
  cases hw : env.writeFile ("images/" ++ mid ++ ".jpg") content with
  | error e =>
    simp [handle_image, errorReply, hc, hm, hw, hr, countEff, isReply]
  | ok u2 =>
  cases hu : (upload_to_google_drive ("images/" ++ mid ++ ".jpg")
      ("LINE_Image_" ++ mid ++ ".jpg") env.folderId env.drive).1 with
  | error e =>
    simp [handle_image, errorReply, hc, hm, hw, hu, hr, countEff,
      List.filter_append, hfil, isReply]
  | ok f =>
    cases hrm : env.removeFile ("images/" ++ mid ++ ".jpg") <;>
      simp [handle_image, errorReply, hc, hm, hw, hu, hrm, hr, countEff,
        List.filter_append, hfil, isReply]

/-- When every reply call succeeds, dispatching any single event yields no
exception and exactly one reply in the trace. -/
theorem dispatchEvent_replies_ok (env : Env)
    (hr : ∀ t m, env.replyResult t m = .ok ()) (fs : FS)
    (e : InboundEvent) :
    (dispatchEvent env fs e).1 = .ok () ∧
    countEff isReply (dispatchEvent env fs e).2.2 = 1 := by
  cases e with
  | text tok uid txt =>
    simp [dispatchEvent, handle_message, hr, countEff, isReply]
  | image tok uid mid =>
    have h := handle_image_replies_ok env hr fs tok mid
    simpa [dispatchEvent] using h

/-- When every reply call succeeds, the event loop completes and its trace
holds exactly one reply per event. -/
theorem handleEvents_replies_ok (env : Env)
    (hr : ∀ t m, env.replyResult t m = .ok ())
    (events : List InboundEvent) :
    ∀ fs : FS, (handleEvents env fs events).1 = .ok () ∧
      countEff isReply (handleEvents env fs events).2.2 = events.length := by
  induction events with
  | nil => intro fs; simp [handleEvents, countEff]
  | cons e rest ih =>
    intro fs
    have hd := dispatchEvent_replies_ok env hr fs e
    have hrest := ih (dispatchEvent env fs e).2.1
    simp only [handleEvents]
    rw [hd.1]
    simp [countEff_append, hd.2, hrest.1, hrest.2, Nat.add_comm]

/-- C7: every inbound event of a request that passes signature
authentication yields exactly one reply call, recorded in the trace the
endpoint produces before returning its HTTP response (the model is
synchronous: the whole trace is complete when `callback` returns, and
nothing is queued). -/
theorem authenticated_events_one_reply_each (env : Env) (fs : FS)
    (body sig : String) (events : List InboundEvent)
    (hs : sig ≠ "") (hv : env.verifySignature body sig = true)
    (hp : env.parseBody body = .ok events)
    (hr : ∀ t m, env.replyResult t m = .ok ()) :
    (callback env fs (some sig) body).1 = ⟨200, "OK"⟩ ∧
    countEff isReply (callback env fs (some sig) body).2.2
      = events.length := by
  have h := handleEvents_replies_ok env hr events fs
  simp [callback, webhookHandle, hs, hv, hp, h.1, h.2]

/-- Evaluation of `authenticated_events_one_reply_each` on a concrete
one-text-event request. -/
theorem authenticated_events_one_reply_each_witness :
    (callback envText [] (some "sig") "body").1 = ⟨200, "OK"⟩ ∧
    countEff isReply (callback envText [] (some "sig") "body").2.2 = 1 :=
  authenticated_events_one_reply_each envText [] "body" "sig"
    [.text "tok" "uid" "hello"] (by decide) rfl rfl (fun _ _ => rfl)

/-- C2: when the upload step raises any error, the image handler catches it,
sends exactly one reply whose text carries the error description, does not
re-raise, and the webhook response is still 200 `"OK"`. -/
theorem image_upload_error_single_reply (env : Env) (fs : FS)
    (body sig tok uid mid e : String) (bytes : List Nat)
    (hs : sig ≠ "") (hv : env.verifySignature body sig = true)
    (hp : env.parseBody body = .ok [InboundEvent.image tok uid mid])
    (hc : env.getContent mid = .ok bytes)
    (hm : env.makeDirs "images" = .ok ())
    (hw : ∀ p b, env.writeFile p b = .ok ())
    (hr : ∀ t m, env.replyResult t m = .ok ())
    (hu : (upload_to_google_drive ("images/" ++ mid ++ ".jpg")
        ("LINE_Image_" ++ mid ++ ".jpg") env.folderId env.drive).1
        = .error e) :
    (handle_image env fs tok mid).1 = .ok () ∧
    (callback env fs (some sig) body).1 = ⟨200, "OK"⟩ ∧
    (callback env fs (some sig) body).2.2.filter isReply =
      [Effect.reply tok ["เกิดข้อผิดพลาด: " ++ e]] := by
  have hfil : (upload_to_google_drive ("images/" ++ mid ++ ".jpg")
      ("LINE_Image_" ++ mid ++ ".jpg") env.folderId
      env.drive).2.filter isReply = [] :=
    upload_trace_filter_nil isReply (fun _ => rfl) (fun _ => rfl) _ _ _ _
  refine ⟨?_, ?_, ?_⟩
  · simp [handle_image, errorReply, hc, hm, hw, hu, hr]
  · simp [callback, webhookHandle, handleEvents, dispatchEvent,
      handle_image, errorReply, hs, hv, hp, hc, hm, hw, hu, hr]
  · simp [callback, webhookHandle, handleEvents, dispatchEvent,
      handle_image, errorReply, hs, hv, hp, hc, hm, hw, hu, hr,
      List.filter_append, hfil, isReply]

/-- Evaluation of `image_upload_error_single_reply` on a concrete request
whose Drive create call fails. -/
theorem image_upload_error_single_reply_witness :
    (handle_image envImageFail [] "tok" "mid1").1 = .ok () ∧
    (callback envImageFail [] (some "sig") "body").1 = ⟨200, "OK"⟩ ∧
    (callback envImageFail [] (some "sig") "body").2.2.filter isReply =
      [Effect.reply "tok" ["เกิดข้อผิดพลาด: " ++ "boom"]] :=
  image_upload_error_single_reply envImageFail [] "body" "sig" "tok" "uid"
    "mid1" "boom" [7] (by decide) rfl rfl rfl rfl (fun _ _ => rfl)
    (fun _ _ => rfl) rfl

/-- C3 (amended): a valid signed request with exactly one image event
fetches content once, writes one scratch file, invokes the uploader once and
sends one reply; the scratch-file deletion is attempted only when the upload
succeeds (and when that attempt succeeds the file is gone), while on upload
failure no deletion is attempted and the scratch file remains. -/
theorem image_event_effects_and_cleanup (env : Env) (fs : FS)
    (body sig tok uid mid : String) (bytes : List Nat)
    (hs : sig ≠ "") (hv : env.verifySignature body sig = true)
    (hp : env.parseBody body = .ok [InboundEvent.image tok uid mid])
    (hc : env.getContent mid = .ok bytes)
    (hm : env.makeDirs "images" = .ok ())
    (hw : ∀ p b, env.writeFile p b = .ok ())
    (hr : ∀ t m, env.replyResult t m = .ok ())
    (hfs : ("images/" ++ mid ++ ".jpg") ∉ fs) :
    (callback env fs (some sig) body).1 = ⟨200, "OK"⟩ ∧
    countEff isGetContent (callback env fs (some sig) body).2.2 = 1 ∧
    countEff isWriteFile (callback env fs (some sig) body).2.2 = 1 ∧
    countEff isUploadCall (callback env fs (some sig) body).2.2 = 1 ∧
    countEff isReply (callback env fs (some sig) body).2.2 = 1 ∧
    (∀ f : DriveFile,
      (upload_to_google_drive ("images/" ++ mid ++ ".jpg")
        ("LINE_Image_" ++ mid ++ ".jpg") env.folderId env.drive).1
          = .ok f →
      countEff isRemoveFile (callback env fs (some sig) body).2.2 = 1 ∧
      (env.removeFile ("images/" ++ mid ++ ".jpg") = .ok () →
        ("images/" ++ mid ++ ".jpg") ∉
          (callback env fs (some sig) body).2.1)) ∧
    (∀ e : String,
      (upload_to_google_drive ("images/" ++ mid ++ ".jpg")
        ("LINE_Image_" ++ mid ++ ".jpg") env.folderId env.drive).1
          = .error e →
      countEff isRemoveFile (callback env fs (some sig) body).2.2 = 0 ∧
      ("images/" ++ mid ++ ".jpg") ∈
        (callback env fs (some sig) body).2.1) := by
  have hnil : ∀ p : Effect → Bool,
      (∀ m, p (Effect.createCall m) = false) →
      (∀ i, p (Effect.permissionCall i) = false) →
      (upload_to_google_drive ("images/" ++ mid ++ ".jpg")
        ("LINE_Image_" ++ mid ++ ".jpg") env.folderId
        env.drive).2.filter p = [] :=
    fun p h1 h2 => upload_trace_filter_nil p h1 h2 _ _ _ _
  have hG := hnil isGetContent (fun _ => rfl) (fun _ => rfl)
  have hW := hnil isWriteFile (fun _ => rfl) (fun _ => rfl)
  have hU := hnil isUploadCall (fun _ => rfl) (fun _ => rfl)
  have hRp := hnil isReply (fun _ => rfl) (fun _ => rfl)
  have hRm := hnil isRemoveFile (fun _ => rfl) (fun _ => rfl)
  have hins : fs.insert ("images/" ++ mid ++ ".jpg")
      = ("images/" ++ mid ++ ".jpg") :: fs := List.insert_of_not_mem hfs
  cases hu : (upload_to_google_drive ("images/" ++ mid ++ ".jpg")
      ("LINE_Image_" ++ mid ++ ".jpg") env.folderId env.drive).1 with
  | error e0 =>
    refine ⟨?_, ?_, ?_, ?_, ?_, ?_, ?_⟩
    · simp [callback, webhookHandle, handleEvents, dispatchEvent,
        handle_image, errorReply, hs, hv, hp, hc, hm, hw, hu, hr]
    · simp [callback, webhookHandle, handleEvents, dispatchEvent,
        handle_image, errorReply, hs, hv, hp, hc, hm, hw, hu, hr,
        countEff, List.filter_append, hG, isGetContent, isReply,
        isWriteFile, isUploadCall]
    · simp [callback, webhookHandle, handleEvents, dispatchEvent,
        handle_image, errorReply, hs, hv, hp, hc, hm, hw, hu, hr,
        countEff, List.filter_append, hW, isGetContent, isReply,
        isWriteFile, isUploadCall]
    · simp [callback, webhookHandle, handleEvents, dispatchEvent,
        handle_image, errorReply, hs, hv, hp, hc, hm, hw, hu, hr,
        countEff, List.filter_append, hU, isGetContent, isReply,
        isWriteFile, isUploadCall]
    · simp [callback, webhookHandle, handleEvents, dispatchEvent,
        handle_image, errorReply, hs, hv, hp, hc, hm, hw, hu, hr,
        countEff, List.filter_append, hRp, isGetContent, isReply,
        isWriteFile, isUploadCall]
    · intro f hf
      simp at hf
    · intro e1 he
      refine ⟨?_, ?_⟩
      · simp [callback, webhookHandle, handleEvents, dispatchEvent,
          handle_image, errorReply, hs, hv, hp, hc, hm, hw, hu, hr,
          countEff, List.filter_append, hRm, isRemoveFile]
      · simp [callback, webhookHandle, handleEvents, dispatchEvent,
          handle_image, errorReply, hs, hv, hp, hc, hm, hw, hu, hr, hins]
  | ok f0 =>
    refine ⟨?_, ?_, ?_, ?_, ?_, ?_, ?_⟩
    · simp [callback, webhookHandle, handleEvents, dispatchEvent,
        handle_image, errorReply, hs, hv, hp, hc, hm, hw, hu, hr]
    · simp [callback, webhookHandle, handleEvents, dispatchEvent,
        handle_image, errorReply, hs, hv, hp, hc, hm, hw, hu, hr,
        countEff, List.filter_append, hG, isGetContent, isReply,
        isWriteFile, isUploadCall, isRemoveFile]
    · simp [callback, webhookHandle, handleEvents, dispatchEvent,
        handle_image, errorReply, hs, hv, hp, hc, hm, hw, hu, hr,
        countEff, List.filter_append, hW, isGetContent, isReply,
        isWriteFile, isUploadCall, isRemoveFile]
    · simp [callback, webhookHandle, handleEvents, dispatchEvent,
        handle_image, errorReply, hs, hv, hp, hc, hm, hw, hu, hr,
        countEff, List.filter_append, hU, isGetContent, isReply,
        isWriteFile, isUploadCall, isRemoveFile]
    · simp [callback, webhookHandle, handleEvents, dispatchEvent,
        handle_image, errorReply, hs, hv, hp, hc, hm, hw, hu, hr,
        countEff, List.filter_append, hRp, isGetContent, isReply,
        isWriteFile, isUploadCall, isRemoveFile]
    · intro f hf
      refine ⟨?_, ?_⟩
      · simp [callback, webhookHandle, handleEvents, dispatchEvent,
          handle_image, errorReply, hs, hv, hp, hc, hm, hw, hu, hr,
          countEff, List.filter_append, hRm, isRemoveFile]
      · intro hrm
        simp [callback, webhookHandle, handleEvents, dispatchEvent,
          handle_image, errorReply, hs, hv, hp, hc, hm, hw, hu, hr,
          hrm, hins, List.erase_cons_head, hfs]
    · intro e1 he
      simp at he

/-- Evaluation of `image_event_effects_and_cleanup` on a concrete request
whose upload and cleanup both succeed. -/
theorem image_event_effects_and_cleanup_witness :
    (callback envImage [] (some "sig") "body").1 = ⟨200, "OK"⟩ ∧
    countEff isRemoveFile (callback envImage [] (some "sig") "body").2.2
      = 1 ∧
    ("images/" ++ "mid1" ++ ".jpg") ∉
      (callback envImage [] (some "sig") "body").2.1 := by
  have h := image_event_effects_and_cleanup envImage [] "body" "sig" "tok"
    "uid" "mid1" [7] (by decide) rfl rfl rfl rfl (fun _ _ => rfl)
    (fun _ _ => rfl) (by simp)
  have h6 := h.2.2.2.2.2.1 sampleFile rfl
  exact ⟨h.1, h6.1, h6.2 rfl⟩

/-- C3 (counterexample to the frozen claim): on a valid signed request with
one image event whose upload fails, handling completes with 200 but no
deletion attempt is ever made and the scratch file still exists. -/
theorem scratch_file_kept_on_upload_error :
    (callback envImageFail [] (some "sig") "body").1 = ⟨200, "OK"⟩ ∧
    countEff isRemoveFile
      (callback envImageFail [] (some "sig") "body").2.2 = 0 ∧
    ("images/" ++ "mid1" ++ ".jpg") ∈
      (callback envImageFail [] (some "sig") "body").2.1 := by
  refine ⟨rfl, rfl, ?_⟩
  decide

end LineBot
